import Mathlib

/-!
Shallow embedding of `src/Fita_Project_1/skillvault.py` (SkillVault, a
personal learning tracker backed by SQLite).

Modelling choices:
- The SQLite database state is a `DB`: the two tables as lists of rows in
  insertion order, plus the AUTOINCREMENT counters (SQLite AUTOINCREMENT
  ids start at 1, increase monotonically and are never reused).
- Each storage operation takes an extra argument `err : Option String`
  injecting a possible `sqlite3.Error` raised by the underlying statements
  during the operation (`none` = the statements succeed).  An `OpResult`
  records the resulting database state, the returned value, the exception
  escaping to the caller (if any), and the console output of the operation.
- SQL floating point (`/60.0`) and Python `round(x, 2)` are modelled over
  exact rationals; `round` uses round-half-to-even as CPython does.
- `datetime.now()` is a `Date` parameter; `strftime` with format
  `%Y-%m-%d` is modelled by `strftimeYmd` (zero padded, as for all real
  calendar dates, whose years have four digits).
-/

namespace SkillVault

/-- Domain record `Skill` (skillvault.py lines 6-19): transient value built
by the interactive layer; `id` is `None` until persisted. -/
structure Skill where
  id : Option Int
  name : String
  category : String
  target_hours : Int
deriving DecidableEq, Repr

/-- Domain record `PracticeSession` (skillvault.py lines 21-36). -/
structure PracticeSession where
  id : Option Int
  skill_id : Int
  duration_minutes : Int
  notes : String
  date : String
deriving DecidableEq, Repr

/-- A persisted row of the `skills` table:
`skills(id INTEGER PRIMARY KEY AUTOINCREMENT, name TEXT NOT NULL,
category TEXT NOT NULL, target_hours INTEGER NOT NULL)`. -/
structure SkillRow where
  id : Int
  name : String
  category : String
  target_hours : Int
deriving DecidableEq, Repr

/-- A persisted row of the `sessions` table:
`sessions(id INTEGER PRIMARY KEY AUTOINCREMENT, skill_id INTEGER,
duration_minutes INTEGER, notes TEXT, date TEXT)`. -/
structure SessionRow where
  id : Int
  skill_id : Int
  duration_minutes : Int
  notes : String
  date : String
deriving DecidableEq, Repr

/-- The SQLite database state owned by a `SkillDatabase` object. -/
structure DB where
  skills : List SkillRow
  sessions : List SessionRow
  nextSkillId : Int
  nextSessionId : Int
deriving DecidableEq, Repr

/-- A fresh database right after `create_tables` on a new file. -/
def emptyDB : DB := ⟨[], [], 1, 1⟩

/-- Result of one storage operation: the database afterwards, the returned
value, the exception escaping to the caller (`none` when nothing is
raised), and the lines printed to the console. -/
structure OpResult (α : Type) where
  db : DB
  ret : α
  raised : Option String
  logged : List String
deriving DecidableEq, Repr

/-- Model of `SkillDatabase.__init__` (lines 42-50): `sqlite3.connect` plus
`create_tables` inside `try`; a `sqlite3.Error` is caught and printed as
`Database connection error: ...` and construction proceeds without a usable
connection (`none`).  The database file name is not modelled beyond being
received.  Returns (connected state, exception escaping, console output). -/
def dbInit (dbName : String) (err : Option String) :
    Option DB × Option String × List String :=
  match dbName, err with
  | _, some e => (none, none, ["Database connection error: " ++ e])
  | _, none => (some emptyDB, none, [])

/-- Model of `SkillDatabase.add_skill` (lines 75-83): INSERT of
(name, category, target_hours) only; the row id comes from AUTOINCREMENT.
A `sqlite3.Error` is caught and printed as `Failed to add skill: ...`. -/
def add_skill (db : DB) (skill : Skill) (err : Option String) : OpResult Unit :=
  match err with
  | some e => ⟨db, (), none, ["Failed to add skill: " ++ e]⟩
  | none =>
      ⟨{ db with
          skills := db.skills ++
            [⟨db.nextSkillId, skill.name, skill.category, skill.target_hours⟩],
          nextSkillId := db.nextSkillId + 1 },
        (), none, []⟩

/-- Model of `SkillDatabase.log_session` (lines 85-93): INSERT of
(skill_id, duration_minutes, notes, date); the row id comes from
AUTOINCREMENT.  A `sqlite3.Error` is caught and printed as
`Failed to log session: ...`. -/
def log_session (db : DB) (session : PracticeSession) (err : Option String) :
    OpResult Unit :=
  match err with
  | some e => ⟨db, (), none, ["Failed to log session: " ++ e]⟩
  | none =>
      ⟨{ db with
          sessions := db.sessions ++
            [⟨db.nextSessionId, session.skill_id, session.duration_minutes,
              session.notes, session.date⟩],
          nextSessionId := db.nextSessionId + 1 },
        (), none, []⟩

/-- Floor of a rational as an integer (denominators are positive, so
`Int.fdiv` of numerator by denominator is the floor). -/
def ratFloor (q : ℚ) : ℤ := q.num.fdiv (q.den : ℤ)

/-- Model of CPython `round(x, 2)` over exact rationals: scale by 100,
round half to even, scale back. -/
def pyRound2 (q : ℚ) : ℚ :=
  let s : ℚ := q * 100
  let f : ℤ := ratFloor s
  let r : ℚ := s - (f : ℚ)
  let n : ℤ :=
    if r < 1/2 then f
    else if 1/2 < r then f + 1
    else if f % 2 = 0 then f else f + 1
  (n : ℚ) / 100

/-- The group of joined rows that `LEFT JOIN sessions sess ON s.id =
sess.skill_id GROUP BY s.id` produces for one skill: the matching session
rows, or a single NULL row when the skill has no sessions. -/
def joinGroup (sessions : List SessionRow) (s : SkillRow) :
    List (Option SessionRow) :=
  let ms := sessions.filter (fun x => decide (x.skill_id = s.id))
  if ms.isEmpty then [none] else ms.map some

/-- SQL `SUM(sess.duration_minutes)` over a group: NULL operands are
skipped and the sum of no operands is NULL. -/
def sqlSum (g : List (Option SessionRow)) : Option Int :=
  g.foldl
    (fun acc x =>
      match x with
      | none => acc
      | some r => some (acc.getD 0 + r.duration_minutes))
    none

/-- SQL `IFNULL(x, d)`. -/
def ifnull (x : Option Int) (d : Int) : Int := x.getD d

/-- One record of the list returned by `get_progress`; the fields model the
Python dict keys `Skill`, `Target Hours`, `Total Practiced`, `Progress %`. -/
structure ProgressRecord where
  skill : String
  targetHours : Int
  totalPracticed : ℚ
  progressPct : ℚ
deriving DecidableEq, Repr

/-- The record `get_progress` builds for one fetched row (lines 105-110):
`r[3]` is `IFNULL(SUM(sess.duration_minutes), 0)/60.0`; `Total Practiced`
is `round(r[3], 2)`; `Progress %` is `round((r[3] / r[2]) * 100, 2)` when
`r[2]` (target_hours) is truthy and the int `0` otherwise. -/
def progressRow (sessions : List SessionRow) (s : SkillRow) : ProgressRecord :=
  let totalHours : ℚ := ((ifnull (sqlSum (joinGroup sessions s)) 0 : ℤ) : ℚ) / 60
  { skill := s.name
    targetHours := s.target_hours
    totalPracticed := pyRound2 totalHours
    progressPct :=
      if s.target_hours = 0 then 0
      else pyRound2 (totalHours / (s.target_hours : ℚ) * 100) }

/-- Model of `SkillDatabase.get_progress` (lines 95-110).  The SELECT
groups the left join by `s.id`; since `id` is the primary key there is one
group per skills row, in id (= insertion) order.  NOTE: unlike the other
operations this method has no `try`/`except`, so an injected
`sqlite3.Error` escapes to the caller (`raised`), and no value is
returned then (modelled by the dummy `[]`). -/
def get_progress (db : DB) (err : Option String) :
    OpResult (List ProgressRecord) :=
  match err with
  | some e => ⟨db, [], some e, []⟩
  | none => ⟨db, db.skills.map (progressRow db.sessions), none, []⟩

/-- Model of `SkillDatabase.delete_skill` (lines 112-120): DELETE the
sessions whose `skill_id` equals the argument, then DELETE the skills row
with that id; a `sqlite3.Error` is caught and printed as
`Failed to delete skill: ...` (on the injected error the commit does not
happen, so the state is unchanged). -/
def delete_skill (db : DB) (skill_id : Int) (err : Option String) :
    OpResult Unit :=
  match err with
  | some e => ⟨db, (), none, ["Failed to delete skill: " ++ e]⟩
  | none =>
      ⟨{ db with
          sessions := db.sessions.filter (fun x => decide (x.skill_id ≠ skill_id)),
          skills := db.skills.filter (fun s => decide (s.id ≠ skill_id)) },
        (), none, []⟩

/-- A calendar date as read from the system clock (`datetime.now()`). -/
structure Date where
  year : Nat
  month : Nat
  day : Nat
deriving DecidableEq, Repr

/-- Last decimal digit of a natural number, as a character. -/
def digitChar (n : Nat) : Char :=
  match n % 10 with
  | 0 => '0'
  | 1 => '1'
  | 2 => '2'
  | 3 => '3'
  | 4 => '4'
  | 5 => '5'
  | 6 => '6'
  | 7 => '7'
  | 8 => '8'
  | _ => '9'

/-- Two decimal digits, zero padded (for `%m` and `%d`). -/
def pad2 (n : Nat) : String := String.mk [digitChar (n / 10), digitChar n]

/-- Four decimal digits, zero padded (for `%Y` on real calendar years). -/
def pad4 (n : Nat) : String :=
  String.mk [digitChar (n / 1000), digitChar (n / 100), digitChar (n / 10),
    digitChar n]

/-- Model of `datetime.now().strftime(%Y-%m-%d)` (line 153) for the
in-range dates the clock produces (month and day below 100, year below
10000): the ISO `YYYY-MM-DD` rendering of the date. -/
def strftimeYmd (d : Date) : String :=
  pad4 d.year ++ "-" ++ pad2 d.month ++ "-" ++ pad2 d.day

/-- Checks the shape of an ISO `YYYY-MM-DD` string: ten characters, dashes
at positions 4 and 7, decimal digits everywhere else. -/
def isIsoYmd (s : String) : Bool :=
  decide (s.length = 10) &&
  decide (s.data.getD 4 'A' = '-') &&
  decide (s.data.getD 7 'A' = '-') &&
  (([0, 1, 2, 3, 5, 6, 8, 9] : List Nat).all
    (fun i => (s.data.getD i 'A').isDigit))

/-- Model of one pass through menu option 1 (lines 139-146).  `name` and
`category` are the raw prompt answers; `target` is the outcome of
`int(input("Target Hours: "))`, `none` meaning the `ValueError` branch;
`sqlErr` is the error injection for the `add_skill` call.  Returns the
database afterwards and the console output (beyond the prompts). -/
def menuOption1 (db : DB) (name category : String) (target : Option Int)
    (sqlErr : Option String) : DB × List String :=
  match target with
  | none => (db, ["Invalid input for target hours."])
  | some t =>
      let r := add_skill db ⟨none, name, category, t⟩ sqlErr
      (r.db, r.logged)

/-- Model of one pass through menu option 2 (lines 148-156).  `skillId` and
`duration` are the outcomes of the two `int(input(...))` calls in prompt
order, `none` meaning `ValueError` (the later prompts are then never
reached; their would-be answers are still parameters but unused).  An empty
`rawDate` falls back to `datetime.now().strftime(%Y-%m-%d)` via the
Python `or`. -/
def menuOption2 (db : DB) (skillId duration : Option Int)
    (notes rawDate : String) (now : Date) (sqlErr : Option String) :
    DB × List String :=
  match skillId with
  | none => (db, ["Invalid input. Please enter numbers where required."])
  | some sid =>
      match duration with
      | none => (db, ["Invalid input. Please enter numbers where required."])
      | some d =>
          let date := if rawDate = "" then strftimeYmd now else rawDate
          let r := log_session db ⟨none, sid, d, notes, date⟩ sqlErr
          (r.db, r.logged)

/-- Plain sum of the durations of the sessions referencing a skill id, as a
rational: the specification-side description of total practiced minutes. -/
def practicedMinutes (sessions : List SessionRow) (skillId : Int) : ℚ :=
  ((sessions.filter (fun x => decide (x.skill_id = skillId))).map
    (fun x => (x.duration_minutes : ℚ))).sum

/-! Concrete database states used by closed statements below. -/

/-- One skill with two sessions, as in the worked example of the spec. -/
def dbC5 : DB :=
  ⟨[⟨1, "Guitar", "Music", 10⟩],
    [⟨1, 1, 150, "warmup", "2024-01-01"⟩, ⟨2, 1, 300, "scales", "2024-01-02"⟩],
    2, 3⟩

/-- One skill, no sessions. -/
def dbC1w : DB := ⟨[⟨1, "Yoga", "Health", 5⟩], [], 2, 1⟩

/-- No skill rows, but an orphaned session referencing skill id 7. -/
def dbC3cex : DB := ⟨[], [⟨1, 7, 30, "stretch", "2024-01-01"⟩], 1, 2⟩

/-- One skill and no sessions, used to exercise deleting a missing id. -/
def dbC3w : DB := ⟨[⟨1, "Chess", "Games", 5⟩], [], 2, 1⟩

/-- Two skills, one session each. -/
def dbC4w : DB :=
  ⟨[⟨1, "Piano", "Creative", 20⟩, ⟨2, "Go", "Games", 5⟩],
    [⟨1, 1, 60, "a", "2024-01-01"⟩, ⟨2, 2, 30, "b", "2024-01-02"⟩], 3, 3⟩

/-- Two skills, one with a nonzero target and one with target zero. -/
def dbC6w : DB := ⟨[⟨1, "A", "T", 10⟩, ⟨2, "B", "T", 0⟩], [], 3, 1⟩

/-! Helper lemmas about the aggregation in `get_progress`. -/

/-- Folding the SQL SUM over a group of non-NULL rows starting from a
partial sum yields the plain sum of the durations. -/
lemma sqlSum_map_some (xs : List SessionRow) (a : ℤ) :
    List.foldl
      (fun acc x =>
        match x with
        | none => acc
        | some r => some (acc.getD 0 + r.duration_minutes))
      (some a) (xs.map some)
    = some (a + (xs.map (fun x => x.duration_minutes)).sum) := by
  induction xs generalizing a with
  | nil => simp
  | cons x xs ih => simp [ih, Int.add_assoc]

/-- `IFNULL(SUM(sess.duration_minutes), 0)` over the join group of a skill
equals the plain sum of `duration_minutes` over the sessions whose
`skill_id` is the id of the skill. -/
lemma ifnull_sqlSum_joinGroup (sessions : List SessionRow) (s : SkillRow) :
    ((ifnull (sqlSum (joinGroup sessions s)) 0 : ℤ) : ℚ)
      = practicedMinutes sessions s.id := by
  unfold joinGroup sqlSum ifnull practicedMinutes
  cases hms : sessions.filter (fun x => decide (x.skill_id = s.id)) with
  | nil => simp
  | cons x xs =>
      simp only [List.isEmpty_cons, Bool.false_eq_true, if_false, List.map_cons,
        List.foldl_cons, Option.getD_none, zero_add]
      rw [sqlSum_map_some]
      simp only [Option.getD_some, List.sum_cons, Int.cast_add, Int.cast_list_sum,
        List.map_map]
      rfl

/-- The `Total Practiced` field of a progress record is the rounded sum of
the durations of the matching sessions divided by 60. -/
lemma totalPracticed_eq (sessions : List SessionRow) (s : SkillRow) :
    (progressRow sessions s).totalPracticed
      = pyRound2 (practicedMinutes sessions s.id / 60) := by
  simp only [progressRow]
  rw [ifnull_sqlSum_joinGroup]

/-- The `Progress %` field of a progress record: the guarded formula of
line 109, with the total spelled as the plain sum of durations. -/
lemma progressPct_eq (sessions : List SessionRow) (s : SkillRow) :
    (progressRow sessions s).progressPct
      = if s.target_hours = 0 then 0
        else pyRound2
          (practicedMinutes sessions s.id / 60 / (s.target_hours : ℚ) * 100) := by
  simp only [progressRow]
  rw [ifnull_sqlSum_joinGroup]

/-- Rounding zero gives zero. -/
lemma pyRound2_zero : pyRound2 0 = 0 := by
  norm_num [pyRound2, ratFloor, Rat.num_ofNat, Rat.den_ofNat, Int.fdiv]

/-- Every character produced by `digitChar` is a decimal digit. -/
lemma digitChar_isDigit (n : Nat) : (digitChar n).isDigit = true := by
  unfold digitChar
  have h : n % 10 < 10 := Nat.mod_lt _ (by omega)
  set m := n % 10 with hm
  interval_cases m <;> rfl

/-- The output of the modelled `strftime(%Y-%m-%d)` has the ISO
`YYYY-MM-DD` shape. -/
lemma strftimeYmd_iso (d : Date) : isIsoYmd (strftimeYmd d) = true := by
  have hd : (strftimeYmd d).data
      = [digitChar (d.year / 1000), digitChar (d.year / 100),
         digitChar (d.year / 10), digitChar d.year, '-',
         digitChar (d.month / 10), digitChar d.month, '-',
         digitChar (d.day / 10), digitChar d.day] := rfl
  have hl : (strftimeYmd d).length = 10 := by
    rw [show (strftimeYmd d).length = (strftimeYmd d).data.length from rfl, hd]
    rfl
  simp [isIsoYmd, hl, hd, digitChar_isDigit]

/-! Claim theorems. -/

/-- C1: for every database state, get_progress returns one record per skill
of the skills table (the map over the skills rows), the field
`Total Practiced` of the record of a skill is the sum of duration_minutes
over the sessions carrying the id of that skill, divided by 60 and rounded
to 2 decimal places, and a skill without sessions still appears, with zero
practiced hours. -/
theorem C1_get_progress_totals (db : DB) :
    (get_progress db none).ret = db.skills.map (progressRow db.sessions) ∧
    (∀ s : SkillRow,
      (progressRow db.sessions s).totalPracticed
        = pyRound2 (practicedMinutes db.sessions s.id / 60)) ∧
    (∀ s : SkillRow,
      db.sessions.filter (fun x => decide (x.skill_id = s.id)) = [] →
        (progressRow db.sessions s).totalPracticed = 0) := by
  refine ⟨rfl, fun s => totalPracticed_eq db.sessions s, fun s h => ?_⟩
  have hz : practicedMinutes db.sessions s.id = 0 := by
    unfold practicedMinutes
    rw [h]
    rfl
  rw [totalPracticed_eq, hz]
  norm_num [pyRound2_zero]

/-- C1 witness: on a database with one skill and no sessions the record
list is the singleton map and the practiced total of the skill is zero. -/
theorem C1_witness :
    (get_progress dbC1w none).ret = dbC1w.skills.map (progressRow dbC1w.sessions) ∧
    (progressRow dbC1w.sessions ⟨1, "Yoga", "Health", 5⟩).totalPracticed = 0 :=
  ⟨(C1_get_progress_totals dbC1w).1,
   (C1_get_progress_totals dbC1w).2.2 ⟨1, "Yoga", "Health", 5⟩ rfl⟩

/-- C2 counterexample: get_progress has no try and except around its
statements, so an injected storage error escapes to the caller, refuting
that every storage operation suppresses storage errors. -/
theorem C2_counterexample :
    (get_progress emptyDB (some "database is locked")).raised
      = some "database is locked" := rfl

/-- C2 amended: construction, add_skill, log_session and delete_skill
catch the storage error inside the operation, print a diagnostic and
suppress it (nothing is raised to the caller); get_progress, which has no
handler, propagates the storage error to its caller. -/
theorem C2_error_policy (db : DB) (sk : Skill) (se : PracticeSession)
    (sid : Int) (dbName e : String) :
    (dbInit dbName (some e)).1 = none ∧
    (dbInit dbName (some e)).2.1 = none ∧
    (dbInit dbName (some e)).2.2 = ["Database connection error: " ++ e] ∧
    (add_skill db sk (some e)).raised = none ∧
    (add_skill db sk (some e)).logged = ["Failed to add skill: " ++ e] ∧
    (log_session db se (some e)).raised = none ∧
    (log_session db se (some e)).logged = ["Failed to log session: " ++ e] ∧
    (delete_skill db sid (some e)).raised = none ∧
    (delete_skill db sid (some e)).logged = ["Failed to delete skill: " ++ e] ∧
    (get_progress db (some e)).raised = some e :=
  ⟨rfl, rfl, rfl, rfl, rfl, rfl, rfl, rfl, rfl, rfl⟩

/-- C3 counterexample: with no skill row carrying id 7 but an orphaned
session referencing 7, delete_skill 7 removes that session, so the
database state is not unchanged. -/
theorem C3_counterexample :
    (∀ s ∈ dbC3cex.skills, s.id ≠ 7) ∧
    (delete_skill dbC3cex 7 none).db.sessions ≠ dbC3cex.sessions := by
  decide

/-- C3 amended: when no skill row has the given id, delete_skill surfaces
no error, leaves the skills table unchanged and removes exactly the
sessions whose skill_id equals the given id; when additionally no session
references the id, the whole database state is unchanged. -/
theorem C3_delete_missing_skill (db : DB) (sid : Int)
    (h : ∀ s ∈ db.skills, s.id ≠ sid) :
    (delete_skill db sid none).raised = none ∧
    (delete_skill db sid none).logged = [] ∧
    (delete_skill db sid none).db.skills = db.skills ∧
    (delete_skill db sid none).db.sessions
      = db.sessions.filter (fun x => decide (x.skill_id ≠ sid)) ∧
    ((∀ x ∈ db.sessions, x.skill_id ≠ sid) → (delete_skill db sid none).db = db) := by
  have hs : db.skills.filter (fun s => decide (s.id ≠ sid)) = db.skills := by
    apply List.filter_eq_self.mpr
    intro a ha
    simpa using h a ha
  refine ⟨rfl, rfl, ?_, rfl, ?_⟩
  · simpa [delete_skill] using hs
  · intro h2
    have hx : db.sessions.filter (fun x => decide (x.skill_id ≠ sid)) = db.sessions := by
      apply List.filter_eq_self.mpr
      intro a ha
      simpa using h2 a ha
    cases db with
    | mk sk se n1 n2 => simp_all [delete_skill]

/-- C3 witness: deleting the missing id 9 from a database with one skill
and no sessions surfaces nothing and leaves the state unchanged. -/
theorem C3_witness :
    (delete_skill dbC3w 9 none).raised = none ∧
    (delete_skill dbC3w 9 none).db = dbC3w :=
  ⟨(C3_delete_missing_skill dbC3w 9 (by decide)).1,
   (C3_delete_missing_skill dbC3w 9 (by decide)).2.2.2.2 (by decide)⟩

/-- C4: deleting an existing skill id X surfaces no error, removes the
skill row X and every session referencing X, keeps the other skills and
the sessions of other skills unchanged (the filters preserve them in
order), and the following get_progress maps only over the remaining
skills, so no record for X remains. -/
theorem C4_delete_skill_cascades (db : DB) (X : Int)
    (h : ∃ s ∈ db.skills, s.id = X) :
    (delete_skill db X none).raised = none ∧
    (delete_skill db X none).db.skills
      = db.skills.filter (fun s => decide (s.id ≠ X)) ∧
    (∀ s ∈ (delete_skill db X none).db.skills, s.id ≠ X) ∧
    (delete_skill db X none).db.sessions
      = db.sessions.filter (fun x => decide (x.skill_id ≠ X)) ∧
    (∀ x ∈ (delete_skill db X none).db.sessions, x.skill_id ≠ X) ∧
    (get_progress (delete_skill db X none).db none).ret
      = (db.skills.filter (fun s => decide (s.id ≠ X))).map
          (progressRow (db.sessions.filter (fun x => decide (x.skill_id ≠ X)))) := by
  refine ⟨rfl, rfl, ?_, rfl, ?_, rfl⟩
  · intro s hs
    simp only [delete_skill, List.mem_filter, decide_eq_true_eq] at hs
    exact hs.2
  · intro x hx
    simp only [delete_skill, List.mem_filter, decide_eq_true_eq] at hx
    exact hx.2

/-- C4 witness: deleting skill 1 from a two-skill database removes its row
and its session and keeps the others. -/
theorem C4_witness :
    (delete_skill dbC4w 1 none).raised = none ∧
    (delete_skill dbC4w 1 none).db.skills
      = dbC4w.skills.filter (fun s => decide (s.id ≠ 1)) ∧
    (∀ s ∈ (delete_skill dbC4w 1 none).db.skills, s.id ≠ 1) ∧
    (delete_skill dbC4w 1 none).db.sessions
      = dbC4w.sessions.filter (fun x => decide (x.skill_id ≠ 1)) ∧
    (∀ x ∈ (delete_skill dbC4w 1 none).db.sessions, x.skill_id ≠ 1) ∧
    (get_progress (delete_skill dbC4w 1 none).db none).ret
      = (dbC4w.skills.filter (fun s => decide (s.id ≠ 1))).map
          (progressRow (dbC4w.sessions.filter (fun x => decide (x.skill_id ≠ 1)))) :=
  C4_delete_skill_cascades dbC4w 1 ⟨⟨1, "Piano", "Creative", 20⟩, by decide, rfl⟩

/-- C5: on the database with one skill of target 10 and two sessions of
150 and 300 minutes, get_progress reports Total Practiced 7.50 hours and
Progress 75.0 percent for that skill. -/
theorem C5_worked_example :
    (get_progress dbC5 none).ret
      = [{ skill := "Guitar", targetHours := 10, totalPracticed := 15/2,
            progressPct := 75 }] := by
  norm_num [dbC5, get_progress, progressRow, joinGroup, sqlSum, ifnull, pyRound2,
    ratFloor, List.filter, Rat.num_ofNat, Rat.den_ofNat, Int.fdiv]

/-- C6: for every skill the Progress field is the practiced hours divided
by target_hours times 100, rounded to 2 decimal places, when target_hours
is nonzero, and exactly 0 when target_hours is zero; get_progress builds
each record with this total function, so the division branch is guarded. -/
theorem C6_progress_percentage (db : DB) (s : SkillRow) :
    (s.target_hours ≠ 0 →
      (progressRow db.sessions s).progressPct
        = pyRound2
            (practicedMinutes db.sessions s.id / 60 / (s.target_hours : ℚ) * 100)) ∧
    (s.target_hours = 0 → (progressRow db.sessions s).progressPct = 0) ∧
    (get_progress db none).ret = db.skills.map (progressRow db.sessions) := by
  refine ⟨fun h => ?_, fun h => ?_, rfl⟩
  · rw [progressPct_eq, if_neg h]
  · rw [progressPct_eq, if_pos h]

/-- C6 witness: in a database with a target-10 skill and a target-0 skill,
the first record uses the rounded quotient and the second is exactly 0. -/
theorem C6_witness :
    (progressRow dbC6w.sessions ⟨1, "A", "T", 10⟩).progressPct
      = pyRound2 (practicedMinutes dbC6w.sessions 1 / 60 / ((10 : Int) : ℚ) * 100) ∧
    (progressRow dbC6w.sessions ⟨2, "B", "T", 0⟩).progressPct = 0 :=
  ⟨(C6_progress_percentage dbC6w ⟨1, "A", "T", 10⟩).1 (by decide),
   (C6_progress_percentage dbC6w ⟨2, "B", "T", 0⟩).2.1 rfl⟩

/-- C7: with a non-integer target_hours input, menu option 1 reports the
invalid-target message and persists nothing; with a non-integer skill_id
or duration, menu option 2 reports the generic message and leaves the
database unchanged, never reaching storage. -/
theorem C7_invalid_integer_input (db : DB) (name category notes rawDate : String)
    (now : Date) (sqlErr : Option String) :
    menuOption1 db name category none sqlErr
      = (db, ["Invalid input for target hours."]) ∧
    (∀ d : Option Int,
      menuOption2 db none d notes rawDate now sqlErr
        = (db, ["Invalid input. Please enter numbers where required."])) ∧
    (∀ sid : Int,
      menuOption2 db (some sid) none notes rawDate now sqlErr
        = (db, ["Invalid input. Please enter numbers where required."])) :=
  ⟨rfl, fun _ => rfl, fun _ => rfl⟩

/-- C8: when the date prompt of menu option 2 receives the empty string,
the stored session row carries the current calendar date rendered by the
strftime model, and that rendering has the ISO `YYYY-MM-DD` shape. -/
theorem C8_empty_date_stores_today (db : DB) (sid d : Int) (notes : String)
    (now : Date) :
    (menuOption2 db (some sid) (some d) notes "" now none).1
      = { db with
          sessions := db.sessions ++
            [⟨db.nextSessionId, sid, d, notes, strftimeYmd now⟩],
          nextSessionId := db.nextSessionId + 1 } ∧
    isIsoYmd (strftimeYmd now) = true :=
  ⟨rfl, strftimeYmd_iso now⟩

/-- C9: a skill added with any id field, name N, any category and target T
appears in the following get_progress with Skill equal to N and Target
Hours equal to T. -/
theorem C9_round_trip_name_target (db : DB) (i : Option Int)
    (name category : String) (T : Int) :
    ∃ r ∈ (get_progress (add_skill db ⟨i, name, category, T⟩ none).db none).ret,
      r.skill = name ∧ r.targetHours = T := by
  refine ⟨progressRow db.sessions ⟨db.nextSkillId, name, category, T⟩, ?_, rfl, rfl⟩
  simp only [get_progress, add_skill, List.map_append, List.map_cons, List.map_nil]
  exact List.mem_append_right _ (List.mem_singleton_self _)

/-- C10: the id field of the record handed to add_skill or log_session
never influences the resulting state (the INSERT lists no id column), and
the row actually inserted carries the next AUTOINCREMENT identifier. -/
theorem C10_record_id_ignored (db : DB) (sk : Skill) (se : PracticeSession)
    (i j : Option Int) (err : Option String) :
    add_skill db { sk with id := i } err = add_skill db { sk with id := j } err ∧
    log_session db { se with id := i } err = log_session db { se with id := j } err ∧
    (add_skill db sk none).db.skills.getLast?
      = some ⟨db.nextSkillId, sk.name, sk.category, sk.target_hours⟩ ∧
    (log_session db se none).db.sessions.getLast?
      = some ⟨db.nextSessionId, se.skill_id, se.duration_minutes, se.notes,
          se.date⟩ := by
  refine ⟨?_, ?_, ?_, ?_⟩
  · cases err <;> rfl
  · cases err <;> rfl
  · simp [add_skill]
  · simp [log_session]

end SkillVault
